import Mathlib

set_option maxRecDepth 100000

/-!
Verification development for the conversation orchestration engine of the
JARVIS repository (`jarvis_logic.py`).  The Python functions relevant to the
frozen claims are shallowly embedded as executable Lean definitions:

* `Message`, `save_historyFn`, `load_history` — history store;
* `detect_tool_usage`, `findallSearch` — the textual marker grammars that are
  scraped out of model output with `re.search` / `re.findall`;
* `execute_system_tool` with a model of Python `eval` on the fragment the
  development needs;
* `should_auto_search`, `extract_location`, `extract_topic` — pre-emptive
  search detection;
* `initialTurnState`, `turnLoop`, `askAIFuel` — the `askAI` turn loop, with the
  model backend and the search client abstracted as oracles and the
  (potentially non-terminating) `while` loop driven by explicit fuel:
  `none` means the loop did not finish within the given number of rounds.
-/

structure Message where
  role : String
  content : String

deriving instance DecidableEq for Message

/-- The single-quote character, Unicode 39. -/
def sqChar : Char := Char.ofNat 39

/-- The single-quote character as a string (used in the source f-strings). -/
def sqStr : String := String.singleton sqChar

/-- Python `\s` / `str.split()` / `str.strip()` whitespace (ASCII range). -/
def pyIsSpace (c : Char) : Bool :=
  c = ' ' || c = '\t' || c = '\n' || c = '\r' || c = Char.ofNat 11 || c = Char.ofNat 12

/-- Python `str.lower()` (the inputs considered are ASCII). -/
def pyLower (s : String) : String := String.mk (s.data.map Char.toLower)

/-- Python `str.strip()`: drop whitespace from both ends. -/
def pyStrip (s : String) : String :=
  String.mk (((s.data.dropWhile pyIsSpace).reverse.dropWhile pyIsSpace).reverse)

/-- Python substring test `needle in hay`. -/
def containsSub (needle : List Char) : List Char → Bool
  | [] => needle.isEmpty
  | c :: rest => needle.isPrefixOf (c :: rest) || containsSub needle rest

/-- `\s*`: greedy whitespace skip (no backtracking is ever needed after it in
the two marker patterns, because the character required next is never a
whitespace character). -/
def dropSpaces : List Char → List Char
  | [] => []
  | c :: rest => if pyIsSpace c then dropSpaces rest else c :: rest

/-- Case-insensitive literal match (re.IGNORECASE): consume `lit` from the
front of the input, comparing lowercased characters. -/
def matchCI : List Char → List Char → Option (List Char)
  | [], cs => some cs
  | _ :: _, [] => none
  | p :: ps, c :: cs => if c.toLower = p.toLower then matchCI ps cs else none

/-- The character class `["\']` of the marker patterns. -/
def isQuote (c : Char) : Bool := c = '"' || c = sqChar

/-!
`detect_tool_usage` scrapes the pattern

  `TOOL\s*\(\s*["\']([^"\']+)["\']\s*(?:,\s*["\']([^"\']+)["\']\s*)?\)`

(with `re.search`, i.e. the leftmost match) out of the response text.
Matching at one position is deterministic: the greedy `[^"\']+` runs stop at
the first quote character, and if the optional argument group starts (a comma
follows the tool name) but fails to complete, no backtracking alternative
exists at that position, so the whole position fails and the scan moves on.
-/

/-- Try to match the tool-marker pattern at the start of `cs`; on success
return the tool name and the optional argument string. -/
def matchToolAt (cs : List Char) : Option (String × Option String) :=
  match matchCI "TOOL".data cs with
  | none => none
  | some r1 =>
    match dropSpaces r1 with
    | '(' :: r3 =>
      match dropSpaces r3 with
      | q1 :: r5 =>
        if isQuote q1 then
          match r5.span (fun c => !(isQuote c)) with
          | ([], _) => none
          | (_ :: _, []) => none
          | (n1 :: name, _q2 :: r7) =>
            match dropSpaces r7 with
            | ')' :: _ => some (String.mk (n1 :: name), none)
            | ',' :: r9 =>
              match dropSpaces r9 with
              | q3 :: r11 =>
                if isQuote q3 then
                  match r11.span (fun c => !(isQuote c)) with
                  | ([], _) => none
                  | (_ :: _, []) => none
                  | (a1 :: args, _q4 :: r13) =>
                    match dropSpaces r13 with
                    | ')' :: _ => some (String.mk (n1 :: name), some (String.mk (a1 :: args)))
                    | _ => none
                else none
              | [] => none
            | _ => none
        else none
      | [] => none
    | _ => none

/-- Leftmost-match scan for the tool marker (`re.search`). -/
def scanTool : List Char → Option (String × Option String)
  | [] => none
  | c :: rest =>
    match matchToolAt (c :: rest) with
    | some r => some r
    | none => scanTool rest

/-- `detect_tool_usage(text)`: returns `(has_tool, tool_name, args)` from the
first tool marker in the text. -/
def detect_tool_usage (text : String) : Bool × Option String × Option String :=
  match scanTool text.data with
  | some (n, a) => (true, some n, a)
  | none => (false, none, none)

/-!
The search marker pattern is `SEARCH\s*\(\s*["\'](.+?)["\']\s*\)` with
`re.IGNORECASE`, extracted with `re.findall`.  The lazy group `(.+?)` tries to
close at each quote character (dot matches quote characters but not a
newline), extending the capture by one character whenever the tail
`["\']\s*\)` does not complete there.
-/

/-- The lazy capture `(.+?)["\']\s*\)`: `acc` is the capture built so far
(in order); on success return the capture and the input after `)`. -/
def lazyCap (acc : List Char) : List Char → Option (List Char × List Char)
  | [] => none
  | c :: rest =>
    if acc.isEmpty = false && isQuote c then
      match dropSpaces rest with
      | ')' :: r2 => some (acc, r2)
      | _ => if c = '\n' then none else lazyCap (acc ++ [c]) rest
    else if c = '\n' then none
    else lazyCap (acc ++ [c]) rest

/-- Try to match the search-marker pattern at the start of `cs`; on success
return the captured query and the input after the match. -/
def matchSearchAt (cs : List Char) : Option (String × List Char) :=
  match matchCI "SEARCH".data cs with
  | none => none
  | some r1 =>
    match dropSpaces r1 with
    | '(' :: r3 =>
      match dropSpaces r3 with
      | q :: r5 =>
        if isQuote q then
          match lazyCap [] r5 with
          | some (cap, rest) => some (String.mk cap, rest)
          | none => none
        else none
      | [] => none
    | _ => none

/-- Left-to-right, non-overlapping collection of all search-marker matches
(`re.findall`), resuming after each match.  The fuel argument bounds the scan
steps; each step consumes at least one character of the input, so fuel equal
to the input length is always sufficient. -/
def findallSearchAux : Nat → List Char → List String
  | 0, _ => []
  | _ + 1, [] => []
  | fuel + 1, c :: rest =>
    match matchSearchAt (c :: rest) with
    | some (cap, after) => cap :: findallSearchAux fuel after
    | none => findallSearchAux fuel rest

/-- `re.findall(search_pattern, text)`: the captured queries of all search
markers, in text order. -/
def findallSearch (cs : List Char) : List String :=
  findallSearchAux (cs.length + 1) cs

example : detect_tool_usage "TOOL(\"time\")" = (true, some "time", none) := by decide

example : detect_tool_usage "please TOOL( \"calculate\" , \"2+2*3\" ) now" =
    (true, some "calculate", some "2+2*3") := by decide

example : detect_tool_usage "no markers here" = (false, none, none) := by decide

example : findallSearch ("SEARCH(\"a b\") and SEARCH(\"c\")").data = ["a b", "c"] := by decide

example : findallSearch ("search (\"x\")").data = ["x"] := by decide

example : findallSearch ("nothing").data = [] := by decide

/-!  History store (`load_history` / `save_history`). -/

/-- `save_history(history)`: before writing, the list is truncated to the cap:
`if len(history) > 31: history = [history[0]] + history[-30:]`.  The result is
the exact list written to the JSON file. -/
def save_historyFn (history : List Message) : List Message :=
  if history.length > 31 then history.take 1 ++ history.drop (history.length - 30)
  else history

/-- The observable states of the persisted history file: absent, present but
failing to load as a list of role/content records (any exception inside the
`try` block, including malformed JSON and wrongly-shaped values, lands in the
`except` handler and falls through to the fresh-transcript return), or a
well-formed list of messages. -/
inductive HistoryFile
  | missing
  | corrupt
  | valid (msgs : List Message)

/-- `load_history()`: `rules` is the configured system-prompt text
(`config.get("rules", ...)`).  A missing or corrupt file yields a fresh
transcript holding only the System message; a loaded list gets the System
message inserted at position 0 when it is empty or does not already start
with one. -/
def load_history (rules : String) : HistoryFile → List Message
  | .missing => [⟨"system", rules⟩]
  | .corrupt => [⟨"system", rules⟩]
  | .valid msgs =>
    match msgs with
    | [] => [⟨"system", rules⟩]
    | m :: rest => if m.role = "system" then m :: rest else ⟨"system", rules⟩ :: m :: rest

/-!  The calculator: `eval(args, {"__builtins__": {}}, {})`.

Python `eval` with stripped builtins still evaluates arbitrary expressions,
not just numeric ones.  `pyEvalStr` models `eval` on the fragment the
development needs — integer literals, double-quoted string literals, and the
operators `+` and `*` with Python semantics (string concatenation and string
repetition included) — returning `none` where Python would raise
(parse errors and type errors both end in the `except` arm of the source). -/

inductive PyVal
  | int (n : Int)
  | str (s : String)

deriving instance DecidableEq for PyVal

/-- Python `str()` applied to the result of `eval` (the source does
`str(result)`). -/
def pyStr : PyVal → String
  | .int n => toString n
  | .str s => s

/-- Python `+` on the modelled values: integer addition, string concatenation;
mixed operands raise (→ `none`). -/
def pyAdd : PyVal → PyVal → Option PyVal
  | .int a, .int b => some (.int (a + b))
  | .str a, .str b => some (.str (a ++ b))
  | _, _ => none

/-- Python `s * n` for a string and an integer (empty for `n ≤ 0`). -/
def repeatStr (s : String) (n : Int) : String :=
  if n ≤ 0 then "" else String.join (List.replicate n.toNat s)

/-- Python `*` on the modelled values: integer product, string repetition on
either side; two strings raise (→ `none`). -/
def pyMul : PyVal → PyVal → Option PyVal
  | .int a, .int b => some (.int (a * b))
  | .str s, .int n => some (.str (repeatStr s n))
  | .int n, .str s => some (.str (repeatStr s n))
  | _, _ => none

/-- Decimal digits to a natural number. -/
def natOfDigits (ds : List Char) : Nat :=
  ds.foldl (fun acc c => acc * 10 + (c.toNat - 48)) 0

/-- Skip whitespace inside an expression. -/
def skipSp (cs : List Char) : List Char := cs.dropWhile pyIsSpace

/-- Parse one atom: an integer literal or a double-quoted string literal. -/
def parseFactor (cs : List Char) : Option (PyVal × List Char) :=
  match skipSp cs with
  | '"' :: rest =>
    match rest.span (fun c => !(c = '"')) with
    | (sChars, '"' :: rest3) => some (.str (String.mk sChars), rest3)
    | _ => none
  | c :: rest =>
    if c.isDigit then
      match (c :: rest).span Char.isDigit with
      | (ds, rest2) => some (.int (Int.ofNat (natOfDigits ds)), rest2)
    else none
  | [] => none

/-- Chain of `*` applications after an initial value (left-associative). -/
def parseTermAux : Nat → PyVal → List Char → Option (PyVal × List Char)
  | 0, _, _ => none
  | fuel + 1, v, cs =>
    match skipSp cs with
    | '*' :: rest =>
      match parseFactor rest with
      | some (v2, rest2) =>
        match pyMul v v2 with
        | some v3 => parseTermAux fuel v3 rest2
        | none => none
      | none => none
    | other => some (v, other)

/-- A `*`-term. -/
def parseTerm (fuel : Nat) (cs : List Char) : Option (PyVal × List Char) :=
  match parseFactor cs with
  | some (v, rest) => parseTermAux fuel v rest
  | none => none

/-- Chain of `+` applications over terms (left-associative, lower precedence
than `*`). -/
def parseExprAux : Nat → PyVal → List Char → Option (PyVal × List Char)
  | 0, _, _ => none
  | fuel + 1, v, cs =>
    match skipSp cs with
    | '+' :: rest =>
      match parseTerm (fuel + 1) rest with
      | some (v2, rest2) =>
        match pyAdd v v2 with
        | some v3 => parseExprAux fuel v3 rest2
        | none => none
      | none => none
    | other => some (v, other)

/-- Model of `eval(args, {"__builtins__": {}}, {})` on the covered fragment:
parse and evaluate the whole string, `none` on any parse or evaluation error.
Stripping `__builtins__` removes names from scope but does not restrict the
expression grammar — string expressions still evaluate. -/
def pyEvalStr (s : String) : Option PyVal :=
  let fuel := s.length + 1
  match parseTerm fuel s.data with
  | some (v, rest) =>
    match parseExprAux fuel v rest with
    | some (v2, rest2) => if skipSp rest2 = [] then some v2 else none
    | none => none
  | none => none

/-- The values of `datetime.now()` / `platform` / `sys.version` during the
turn, supplied abstractly since they are environment inputs. -/
structure Clock where
  time : String
  date : String
  datetimeStr : String
  day : String
  timestamp : String
  year : String
  month : String
  osInfo : String
  pythonVersion : String

/-- `execute_system_tool(tool_name, args)`: case-insensitive synonym matching
over the tool table, `(ok, result)` as in the source.  `if args:` treats both
`None` and the empty string as absent. -/
def execute_system_tool (clk : Clock) (toolName0 : String) (args : Option String) :
    Bool × String :=
  let toolName := pyStrip (pyLower toolName0)
  if ["time", "get_time", "current_time"].contains toolName then (true, clk.time)
  else if ["date", "get_date", "current_date"].contains toolName then (true, clk.date)
  else if ["datetime", "get_datetime"].contains toolName then (true, clk.datetimeStr)
  else if ["day", "weekday", "day_of_week"].contains toolName then (true, clk.day)
  else if ["timestamp", "unix_time"].contains toolName then (true, clk.timestamp)
  else if ["year"].contains toolName then (true, clk.year)
  else if ["month"].contains toolName then (true, clk.month)
  else if ["calculate", "calc", "math"].contains toolName then
    match args with
    | some a =>
      if a = "" then (false, "No expression provided")
      else
        match pyEvalStr a with
        | some v => (true, pyStr v)
        | none => (false, "Invalid calculation")
    | none => (false, "No expression provided")
  else if ["system", "os", "platform"].contains toolName then (true, clk.osInfo)
  else if ["python_version"].contains toolName then (true, clk.pythonVersion)
  else (false, "Unknown tool: " ++ toolName)

/-- Modelled from the spec: the "restricted numeric expression grammar" that
arithmetic evaluation is required to accept — strings built only from digits,
whitespace, parentheses, the decimal point and the arithmetic operators.
Compared against what `execute_system_tool` actually accepts. -/
def specNumericArg (s : String) : Bool :=
  s.data.all fun c =>
    c.isDigit || pyIsSpace c || c = '(' || c = ')' || c = '+' || c = '-' ||
      c = '*' || c = '/' || c = '%' || c = '.'

example : pyEvalStr "2+2*3" = some (.int 8) := by decide

example : execute_system_tool ⟨"t", "d", "dt", "day", "ts", "y", "m", "os", "pv"⟩
    "calculate" (some "2+2*3") = (true, "8") := by decide

example : execute_system_tool ⟨"t", "d", "dt", "day", "ts", "y", "m", "os", "pv"⟩
    "CALC " (some "abc") = (false, "Invalid calculation") := by decide

/-!  Pre-emptive search detection (`should_auto_search` and its helpers). -/

/-- Python `text.split()`: split on whitespace runs, dropping empty pieces.
`cur` is the word being built, in reverse. -/
def pyWords (cur : List Char) : List Char → List String
  | [] => if cur.isEmpty then [] else [String.mk cur.reverse]
  | c :: rest =>
    if pyIsSpace c then
      if cur.isEmpty then pyWords [] rest
      else String.mk cur.reverse :: pyWords [] rest
    else pyWords (c :: cur) rest

/-- Python `text.split()`. -/
def pySplit (s : String) : List String := pyWords [] s.data

/-- `word[0].isupper()` (split words are never empty, but the predicate is
total). -/
def headIsUpper (w : String) : Bool :=
  match w.data with
  | c :: _ => c.isUpper
  | [] => false

/-- `extract_location(text)`: the first capitalized word not in the small
stop list, else `"here"`. -/
def extract_location (text : String) : String :=
  match (pySplit text).find?
      (fun w => headIsUpper w && !(["i", "what", "how", "when"].contains (pyLower w))) with
  | some w => w
  | none => "here"

/-- `extract_topic(text)`: the first three lower-cased words that survive the
stop-word filter, space-joined. -/
def extract_topic (text : String) : String :=
  let removeWords := ["what", "how", "when", "is", "the", "latest", "current",
    "news", "about", "price", "of"]
  let ws := (pySplit (pyLower text)).filter (fun w => !(removeWords.contains w))
  if ws.isEmpty then "" else String.intercalate " " (ws.take 3)

/-- The `search_triggers` table, in the source's (insertion) order.  The
generic triggers map to builders returning `none`, modelling the lambdas that
return Python `None`.  Note that the source's `if query_builder:` test is
always true — every stored value is a function object — so its
`return (False, None)` line is dead code, and a generic trigger yields
`(True, None)`.  The `news` builder interpolates `datetime.now().year`, hence
the `Clock` parameter. -/
def searchTriggers (clk : Clock) : List (String × (String → Option String)) :=
  [("weather", fun text => some ("weather " ++ extract_location text ++ " today")),
   ("temperature", fun text => some ("temperature " ++ extract_location text ++ " now")),
   ("news", fun text => some ("latest news " ++ extract_topic text ++ " " ++ clk.year)),
   ("stock", fun text => some ("stock price " ++ extract_topic text)),
   ("price", fun text => some ("current price " ++ extract_topic text)),
   ("score", fun text => some ("latest " ++ extract_topic text ++ " score")),
   ("match", fun text => some ("latest " ++ extract_topic text ++ " match result")),
   ("when", fun _ => none),
   ("today", fun _ => none),
   ("now", fun _ => none),
   ("current", fun _ => none),
   ("latest", fun _ => none)]

/-- `should_auto_search(user_input)`: the first trigger that is a substring of
the lower-cased input decides; no trigger gives `(False, None)`. -/
def should_auto_search (clk : Clock) (userInput : String) : Bool × Option String :=
  let userLower := pyLower userInput
  match (searchTriggers clk).find? (fun p => containsSub p.1.data userLower.data) with
  | some p => (true, p.2 userInput)
  | none => (false, none)

/-!  The `askAI` turn: synthetic message texts, oracles, the `while` loop. -/

/-- A user-role message. -/
def userMsg (s : String) : Message := ⟨"user", s⟩

/-- An assistant-role message. -/
def assistantMsg (s : String) : Message := ⟨"assistant", s⟩

/-- A system-role message. -/
def systemMsg (rules : String) : Message := ⟨"system", rules⟩

/-- The synthetic tool-result instruction message content. -/
def toolResultText (name result : String) : String :=
  "[TOOL RESULT for " ++ sqStr ++ name ++ sqStr ++ "]: " ++ result ++
    "\n\nUse this information to answer the user naturally."

/-- The synthetic tool-failure instruction message content. -/
def toolFailText (result : String) : String :=
  "Tool failed: " ++ result ++ ". Please answer based on your knowledge."

/-- The synthetic search-failure instruction message content. -/
def searchFailText : String :=
  "The search failed. Please answer based on your existing knowledge instead."

/-- The synthetic results-bearing instruction for a model-requested search. -/
def searchResultsText (query results : String) : String :=
  "[SEARCH RESULTS for \"" ++ query ++ "\"]\n\n" ++ results ++
    "\n\nIMPORTANT: Based on these search results, provide your FINAL answer to the user" ++
    sqStr ++ "s question.\nExtract the key information (temperature, facts, data, etc.) " ++
    "and present it naturally.\nDo NOT just list websites or sources - give the actual " ++
    "answer.\nDo NOT request another search. Answer conversationally."

/-- The synthetic results-bearing instruction for the pre-emptive search. -/
def autoSearchResultsText (query results : String) : String :=
  "[SEARCH RESULTS for \"" ++ query ++ "\"]\n\n" ++ results ++
    "\n\nBased on these search results, answer the user" ++ sqStr ++
    "s question directly and naturally. \nExtract the specific information they need " ++
    "(like temperature, news, etc.) and present it conversationally.\nDo NOT just list " ++
    "websites - give them the actual information."

/-- The synthetic assistant search request injected for the pre-emptive
search: `SEARCH("{auto_query}")`. -/
def autoSearchRequestText (q : String) : String := "SEARCH(\"" ++ q ++ "\")"

/-- The fixed apologetic fallback used when the loop exits with the search
budget exhausted. -/
def fallbackText : String :=
  "I apologize, but I" ++ sqStr ++
    "m having trouble finding the right information. Could you rephrase your question?"

/-- The fixed notice returned when the Ollama backend is unavailable. -/
def ollamaNotice : String := "Ollama not available. Install from: https://ollama.ai"

/-- The two external collaborators of the turn loop: `model` is
`ollama.chat` on the working transcript; `search` is `web_search` (with its
internal retries folded in), `none` meaning failure after retries. -/
structure Oracles where
  model : List Message → String
  search : String → Option String

/-- The pre-emptive search step of `askAI` (after the user message has been
appended): on a trigger with a truthy query, with web search available and
the search returning truthy results, inject the synthetic request/results
pair into the working transcript and set `search_count = 1`; in every other
case the working transcript is the history copy and `search_count = 0`. -/
def initialTurnState (oc : Oracles) (web : Bool) (userInput : String) (clk : Clock)
    (history : List Message) : List Message × Nat :=
  match should_auto_search clk userInput, web with
  | (true, some q), true =>
    if q = "" then (history, 0)
    else
      match oc.search q with
      | some results =>
        if results = "" then (history, 0)
        else
          (history ++ [assistantMsg (autoSearchRequestText q),
            userMsg (autoSearchResultsText q results)], 1)
      | none => (history, 0)
  | _, _ => (history, 0)

/-- The loop's exit conditions: a clean final answer (a response with no
honored marker), or falling out of the `while` with the search budget
exhausted. -/
inductive LoopExit
  | clean (answer : String)
  | exhausted

deriving instance DecidableEq for LoopExit

/-- The `while search_count < max_search_attempts` loop of `askAI`.
Arguments: fuel (`none` when the loop has not finished within that many
rounds — the source loop has no such bound), working transcript, the
`search_count`, and an instrumentation counter of model calls made so far
(used to state claims about whether another model call happens).  Each round:
model call; the first tool marker, if any, is executed and the loop continues
(on success and on failure alike) with `search_count` unchanged; otherwise,
with a search marker present, web search available and budget left,
`search_matches[0]` is searched, the matching synthetic pair appended, and
the loop continues; otherwise the response is the clean final answer. -/
def turnLoop (oc : Oracles) (clk : Clock) (web : Bool) (maxS : Nat) :
    Nat → List Message → Nat → Nat → Option (LoopExit × Nat)
  | 0, _, _, _ => none
  | fuel + 1, temp, sc, calls =>
    if sc < maxS then
      let r := oc.model temp
      match detect_tool_usage r with
      | (true, some name, toolArgs) =>
        match execute_system_tool clk name toolArgs with
        | (true, result) =>
          turnLoop oc clk web maxS fuel
            (temp ++ [assistantMsg r, userMsg (toolResultText name result)]) sc (calls + 1)
        | (false, result) =>
          turnLoop oc clk web maxS fuel
            (temp ++ [assistantMsg r, userMsg (toolFailText result)]) sc (calls + 1)
      | _ =>
        let searchMatches := findallSearch r.data
        if searchMatches ≠ [] ∧ web = true ∧ sc < maxS then
          match oc.search (searchMatches.headD "") with
          | none =>
            turnLoop oc clk web maxS fuel
              (temp ++ [assistantMsg r, userMsg searchFailText]) (sc + 1) (calls + 1)
          | some res =>
            turnLoop oc clk web maxS fuel
              (temp ++ [assistantMsg r, userMsg (searchResultsText (searchMatches.headD "") res)])
              (sc + 1) (calls + 1)
        else some (.clean r, calls + 1)
    else some (.exhausted, calls)

/-- The exit taken by a finished `askAI` call. -/
inductive AskExit
  | unavailable
  | clean
  | exhausted

deriving instance DecidableEq for AskExit

/-- A finished `askAI` call: the returned text, the list passed to
`save_history` (`none` when `save_history` is never called), and which exit
was taken. -/
structure RunOut where
  answer : String
  saved : Option (List Message)
  exitKind : AskExit

deriving instance DecidableEq for RunOut

/-- `askAI(user_input)` with the loaded history `history0` as input.  When
the backend is unavailable the fixed notice is returned before the user
message is appended and before any save.  Otherwise the user message is
appended, the pre-emptive search may run, and the loop produces either a
clean final answer or — on budget exhaustion — the fixed fallback; in both
cases exactly the user message and the single final assistant message are
appended to the persisted copy and saved.  `max_search_attempts = 2` as in
the source.  `none` models the case where the loop never exits. -/
def askAIFuel (fuel : Nat) (oc : Oracles) (clk : Clock) (ollamaAvailable web : Bool)
    (userInput : String) (history0 : List Message) : Option RunOut :=
  if ollamaAvailable then
    let history := history0 ++ [userMsg userInput]
    let st := initialTurnState oc web userInput clk history
    match turnLoop oc clk web 2 fuel st.1 st.2 0 with
    | none => none
    | some (.clean a, _) =>
      some ⟨a, some (save_historyFn (history ++ [assistantMsg a])), .clean⟩
    | some (.exhausted, _) =>
      some ⟨fallbackText, some (save_historyFn (history ++ [assistantMsg fallbackText])),
        .exhausted⟩
  else some ⟨ollamaNotice, none, .unavailable⟩

/-!  Concrete instances used by counterexamples and witnesses. -/

/-- A concrete clock. -/
def sampleClock : Clock :=
  ⟨"14:30:45", "2024-05-01", "2024-05-01 14:30:45", "Wednesday", "1714573845",
    "2024", "May", "Linux 6.1", "3.11.4"⟩

/-- A concrete one-message prior history. -/
def sampleHistory : List Message := [systemMsg "You are JARVIS."]

/-- A model that requests the `time` tool in every response (the search
client always fails; it is never consulted). -/
def toolLoopOracle : Oracles :=
  ⟨fun _ => "TOOL(\"time\")", fun _ => none⟩

/-- A model that answers plainly on the first call. -/
def plainOracle : Oracles :=
  ⟨fun _ => "Hi there.", fun _ => none⟩

/-- A model that requests a search on every call while the search client
always fails. -/
def failSearchOracle : Oracles :=
  ⟨fun _ => "SEARCH(\"weather Budapest today\")", fun _ => none⟩

/-- A model that requests one search per response while the search client
always succeeds. -/
def constSearchOracle : Oracles :=
  ⟨fun _ => "SEARCH(\"q1\")", fun _ => some "R"⟩

/-- A response carrying two search markers. -/
def twoMarkerText : String :=
  "SEARCH(\"first query\") and then SEARCH(\"second query\")"

/-- A model that first emits the two-marker response and, once a synthetic
results message is in the transcript, reports which query was actually
searched; the search client echoes fixed results. -/
def echoOracle : Oracles :=
  ⟨fun t =>
    if t.any (fun m => m.content = searchResultsText "first query" "RES") then "got first"
    else if t.any (fun m => m.content = searchResultsText "second query" "RES") then
      "got second"
    else twoMarkerText,
   fun _ => some "RES"⟩

/-- A model that requests `q1`, then — after seeing results for `q1` —
requests `q2`, and would answer cleanly if it ever saw results for `q2`; the
search client always succeeds. -/
def twoSearchOracle : Oracles :=
  ⟨fun t =>
    if t.any (fun m => containsSub ("[SEARCH RESULTS for \"q2\"]").data m.content.data) then
      "Here is the final answer."
    else if t.any
        (fun m => containsSub ("[SEARCH RESULTS for \"q1\"]").data m.content.data) then
      "SEARCH(\"q2\")"
    else "SEARCH(\"q1\")",
   fun q => some ("results for " ++ q)⟩

example : should_auto_search sampleClock "I like dogs" = (false, none) := by decide

example : should_auto_search sampleClock "any news about Mars" =
    (true, some "latest news any mars 2024") := by decide

example : should_auto_search sampleClock "what is happening now" = (true, none) := by decide

example : extract_location "weather in Budapest" = "Budapest" := by decide

/-- The failing calculator argument: Python `eval` of `"a"+"b"` (string
concatenation) succeeds with builtins stripped. -/
def calcBadArg : String := "\"a\"+\"b\""

/-!  Theorems. -/

/-- One-step unfolding of the turn loop at positive fuel. -/
theorem turnLoop_succ (oc : Oracles) (clk : Clock) (web : Bool) (maxS fuel : Nat)
    (temp : List Message) (sc calls : Nat) :
    turnLoop oc clk web maxS (fuel + 1) temp sc calls =
      if sc < maxS then
        let r := oc.model temp
        match detect_tool_usage r with
        | (true, some name, toolArgs) =>
          match execute_system_tool clk name toolArgs with
          | (true, result) =>
            turnLoop oc clk web maxS fuel
              (temp ++ [assistantMsg r, userMsg (toolResultText name result)]) sc (calls + 1)
          | (false, result) =>
            turnLoop oc clk web maxS fuel
              (temp ++ [assistantMsg r, userMsg (toolFailText result)]) sc (calls + 1)
        | _ =>
          let searchMatches := findallSearch r.data
          if searchMatches ≠ [] ∧ web = true ∧ sc < maxS then
            match oc.search (searchMatches.headD "") with
            | none =>
              turnLoop oc clk web maxS fuel
                (temp ++ [assistantMsg r, userMsg searchFailText]) (sc + 1) (calls + 1)
            | some res =>
              turnLoop oc clk web maxS fuel
                (temp ++ [assistantMsg r,
                  userMsg (searchResultsText (searchMatches.headD "") res)])
                (sc + 1) (calls + 1)
          else some (.clean r, calls + 1)
      else some (.exhausted, calls) := rfl

/-- Truncation never invents messages: everything written by `save_history`
was in its input. -/
theorem mem_save_historyFn {m : Message} {l : List Message} :
    m ∈ save_historyFn l → m ∈ l := by
  unfold save_historyFn
  split
  · intro h
    rcases List.mem_append.mp h with h | h
    · exact List.take_subset _ _ h
    · exact List.drop_subset _ _ h
  · exact id

/-- C1. The claim says the calculator accepts only a restricted numeric
expression grammar and returns `ok=false` on anything outside it.  The code
instead hands the argument to Python `eval` with builtins stripped, which
still evaluates arbitrary expressions: the non-numeric argument `"a"+"b"`
evaluates successfully to `(True, "ab")` instead of a failure.  (Numeric
arguments such as `2+2*3` do evaluate, so the grammar is a strict subset of
what is accepted.) -/
theorem C1_calculator_accepts_non_numeric :
    execute_system_tool sampleClock "calculate" (some calcBadArg) = (true, "ab")
    ∧ specNumericArg calcBadArg = false
    ∧ execute_system_tool sampleClock "calculate" (some "2+2*3") = (true, "8") := by decide

/-- C4, counterexample. `save_history` applied to a list whose first element
is a User message writes it unchanged: the written transcript's element 0
does not have role System, refuting the claim's universal quantification
over inputs of any contents. -/
theorem C4_cx_head_role_not_system :
    save_historyFn [⟨"user", "x"⟩] = [⟨"user", "x"⟩]
    ∧ ¬((save_historyFn [⟨"user", "x"⟩]).head?.map Message.role = some "system") := by
  decide

/-- C4, amended. The transcript written by `save_history` always has length
at most 31; the head of the input is preserved (so element 0 has role System
exactly when the input's element 0 does — `save_history` never establishes
it); inputs over the cap are truncated to the first message plus the most
recent 30, and inputs within the cap are written unchanged. -/
theorem C4_save_history_cap (h : List Message) :
    (save_historyFn h).length ≤ 31
    ∧ (save_historyFn h).head? = h.head?
    ∧ (31 < h.length → save_historyFn h = h.take 1 ++ h.drop (h.length - 30))
    ∧ (h.length ≤ 31 → save_historyFn h = h) := by
  unfold save_historyFn
  by_cases hl : h.length > 31
  · rw [if_pos hl]
    refine ⟨?_, ?_, fun _ => rfl, fun hle => absurd hl (by omega)⟩
    · rw [List.length_append, List.length_take, List.length_drop]
      omega
    · cases h with
      | nil => simp at hl
      | cons a t => simp
  · rw [if_neg hl]
    exact ⟨by omega, rfl, fun hgt => absurd hgt hl, fun _ => rfl⟩

/-- C4, witness: a 32-message input is truncated to the cap, keeping the
first message plus the most recent 30. -/
theorem C4_save_history_cap_witness :
    (save_historyFn (List.replicate 32 (Message.mk "user" "x"))).length ≤ 31
    ∧ save_historyFn (List.replicate 32 (Message.mk "user" "x")) =
        (List.replicate 32 (Message.mk "user" "x")).take 1 ++
          (List.replicate 32 (Message.mk "user" "x")).drop
            ((List.replicate 32 (Message.mk "user" "x")).length - 30) :=
  ⟨(C4_save_history_cap _).1, (C4_save_history_cap _).2.2.1 (by decide)⟩

/-- C9. `load_history` is total over every file state (exceptions are the
`corrupt` state): a missing or corrupt history file yields a fresh transcript
holding only the configured System message, and every returned transcript
begins with a message of role `system`. -/
theorem C9_load_history_system_head (rules : String) (fs : HistoryFile) :
    ((load_history rules fs).head?.map Message.role = some "system")
    ∧ load_history rules .missing = [systemMsg rules]
    ∧ load_history rules .corrupt = [systemMsg rules] := by
  refine ⟨?_, rfl, rfl⟩
  cases fs with
  | missing => rfl
  | corrupt => rfl
  | valid msgs =>
    cases msgs with
    | nil => rfl
    | cons m rest =>
      by_cases hr : m.role = "system"
      · simp [load_history, hr]
      · simp [load_history, hr]

/-- C10. With the backend unavailable, `askAI` returns the fixed notice
before appending the user message and before any call to `save_history`
(`saved = none`): the persisted transcript is untouched. -/
theorem C10_unavailable_no_save (fuel : Nat) (oc : Oracles) (clk : Clock) (web : Bool)
    (userInput : String) (history0 : List Message) :
    askAIFuel fuel oc clk false web userInput history0 =
      some ⟨ollamaNotice, none, .unavailable⟩ := rfl

/-- A model that answers with a tool marker on every round keeps the loop
running with `search_count` unchanged: the loop condition only checks the
search counter, and tool rounds do not touch it. -/
theorem turnLoop_toolLoop_none (fuel : Nat) :
    ∀ (temp : List Message) (sc calls : Nat), sc < 2 →
      turnLoop toolLoopOracle sampleClock true 2 fuel temp sc calls = none := by
  induction fuel with
  | zero => intro temp sc calls _; rfl
  | succ n ih =>
    intro temp sc calls hsc
    rw [turnLoop_succ, if_pos hsc]
    have hmodel : toolLoopOracle.model temp = "TOOL(\"time\")" := rfl
    have hd : detect_tool_usage (toolLoopOracle.model temp) = (true, some "time", none) := by
      rw [hmodel]; decide
    have hx : execute_system_tool sampleClock "time" none = (true, "14:30:45") := by decide
    simp only [hd, hx]
    exact ih _ sc (calls + 1) hsc

/-- C2, counterexample. With a model that emits a tool marker in every
response, the turn has not finished after 20 loop rounds — far past any
"small fixed cap on tool-call rounds". -/
theorem C2_cx_twenty_tool_rounds :
    askAIFuel 20 toolLoopOracle sampleClock true true "hello" sampleHistory = none := by
  decide

/-- C2, amended. Search rounds are bounded by `max_search_attempts = 2`, but
there is no cap on tool-call rounds: the `while` condition inspects only
`search_count`, which tool rounds leave unchanged, so a model that responds
with a tool marker on every call makes `askAI` loop forever — for every fuel
bound the loop is still running. -/
theorem C2_tool_rounds_unbounded (fuel : Nat) :
    askAIFuel fuel toolLoopOracle sampleClock true true "hello" sampleHistory = none := by
  have h0 : should_auto_search sampleClock "hello" = (false, none) := by decide
  have hinit : initialTurnState toolLoopOracle true "hello" sampleClock
      (sampleHistory ++ [userMsg "hello"]) = (sampleHistory ++ [userMsg "hello"], 0) := by
    unfold initialTurnState; rw [h0]
  unfold askAIFuel
  rw [if_pos rfl]
  dsimp only
  rw [hinit]
  dsimp only
  rw [turnLoop_toolLoop_none fuel _ 0 0 (by omega)]

/-- The pre-emptive search step injects nothing when the search client always
fails, whatever the user input: a failed automatic search leaves the working
transcript and `search_count` untouched. -/
theorem initialTurnState_search_fails (oc : Oracles) (web : Bool) (userInput : String)
    (clk : Clock) (history : List Message) (hf : ∀ q, oc.search q = none) :
    initialTurnState oc web userInput clk history = (history, 0) := by
  unfold initialTurnState
  rcases h : should_auto_search clk userInput with ⟨sb, aq⟩
  cases sb <;> cases aq <;> cases web <;> simp [hf]

/-- With no tool marker, a search marker in every response, and a search
client that always fails, the loop burns the remaining search budget in
failure rounds and falls out of the `while` exhausted. -/
theorem turnLoop_all_fail (oc : Oracles) (clk : Clock)
    (hm : ∀ t, detect_tool_usage (oc.model t) = (false, none, none))
    (hs : ∀ t, findallSearch (oc.model t).data ≠ [])
    (hf : ∀ q, oc.search q = none) :
    ∀ (n fuel : Nat) (temp : List Message) (sc calls : Nat), sc + n = 2 →
      ∃ c, turnLoop oc clk true 2 (fuel + n + 1) temp sc calls = some (.exhausted, c) := by
  intro n
  induction n with
  | zero =>
    intro fuel temp sc calls hsc
    refine ⟨calls, ?_⟩
    rw [turnLoop_succ, if_neg (by omega)]
  | succ k ih =>
    intro fuel temp sc calls hsc
    have hsc2 : sc < 2 := by omega
    rw [turnLoop_succ, if_pos hsc2]
    simp only [hm temp]
    rw [if_pos (⟨hs temp, by simp, hsc2⟩ : _ ∧ _ ∧ _), hf _]
    exact ih fuel _ (sc + 1) (calls + 1) (by omega)

/-- C5. With `maxSearchAttempts = 2`, a model that responds with a search
marker (and no tool marker) on every call, and a search client that fails on
every attempt, the turn terminates with the fixed fallback apology, and the
list handed to `save_history` is exactly the prior history plus the one new
User/Assistant pair (the user input and the apology). -/
theorem C5_failing_search_fallback (oc : Oracles) (clk : Clock) (history0 : List Message)
    (userInput : String) (fuel : Nat)
    (hm : ∀ t, detect_tool_usage (oc.model t) = (false, none, none))
    (hs : ∀ t, findallSearch (oc.model t).data ≠ [])
    (hf : ∀ q, oc.search q = none) :
    askAIFuel (fuel + 3) oc clk true true userInput history0 =
      some ⟨fallbackText,
        some (save_historyFn (history0 ++ [userMsg userInput, assistantMsg fallbackText])),
        .exhausted⟩ := by
  unfold askAIFuel
  rw [if_pos rfl]
  dsimp only
  rw [initialTurnState_search_fails oc true userInput clk _ hf]
  obtain ⟨c, hc⟩ :=
    turnLoop_all_fail oc clk hm hs hf 2 fuel (history0 ++ [userMsg userInput]) 0 0 (by omega)
  dsimp only
  rw [hc]
  simp [List.append_assoc]

/-- C5, witness: the concrete scenario of the spec's test — the query
`weather Budapest today`, a model that always requests that search, a search
client failing on both attempts. -/
theorem C5_failing_search_fallback_witness :
    askAIFuel 3 failSearchOracle sampleClock true true "weather Budapest today"
        sampleHistory =
      some ⟨fallbackText,
        some (save_historyFn (sampleHistory ++
          [userMsg "weather Budapest today", assistantMsg fallbackText])), .exhausted⟩ :=
  C5_failing_search_fallback failSearchOracle sampleClock sampleHistory
    "weather Budapest today" 0
    (fun _ =>
      (by decide : detect_tool_usage "SEARCH(\"weather Budapest today\")" =
        (false, none, none)))
    (fun _ =>
      (by decide : findallSearch ("SEARCH(\"weather Budapest today\")").data ≠ []))
    (fun _ => rfl)

/-- C3, counterexample. `twoSearchOracle` requests `q1`, then — after seeing
the `q1` results — requests `q2`, and would answer cleanly if it ever saw the
`q2` results; every search succeeds.  The second request is made while
`search_count = 1 < 2`, the search succeeds and the synthetic pair is
appended, yet the loop makes no further model call (exactly 2 model calls are
counted) and exits with the fixed fallback: the successful last-slot search
results are never shown to the model, refuting "loops back to another model
call" after every in-budget successful search. -/
theorem C3_cx_last_slot_search_discarded :
    turnLoop twoSearchOracle sampleClock true 2 10 (sampleHistory ++ [userMsg "hello"]) 0 0 =
      some (.exhausted, 2)
    ∧ askAIFuel 10 twoSearchOracle sampleClock true true "hello" sampleHistory =
        some ⟨fallbackText,
          some (save_historyFn
            (sampleHistory ++ [userMsg "hello", assistantMsg fallbackText])),
          .exhausted⟩ := by decide

/-- C3, amended. When a model-requested search succeeds with
`search_count < maxSearchAttempts`, the orchestrator appends the assistant's
request and the synthetic results-bearing instruction message and continues
the loop; but the loop reaches another model call only when the incremented
count is still below `maxSearchAttempts` — if the successful search consumed
the final budget slot, the very next loop check exits and the fixed fallback
is substituted without any further model call (the model-call counter stays
at `calls + 1`).  The fallback is substituted exactly when the loop exits
with the budget exhausted. -/
theorem C3_search_success_round (oc : Oracles) (clk : Clock) (maxS fuel sc calls : Nat)
    (temp : List Message) (q res : String) (qs : List String)
    (htool : detect_tool_usage (oc.model temp) = (false, none, none))
    (hfind : findallSearch (oc.model temp).data = q :: qs)
    (hsearch : oc.search q = some res)
    (hsc : sc < maxS) :
    turnLoop oc clk true maxS (fuel + 1) temp sc calls =
      turnLoop oc clk true maxS fuel
        (temp ++ [assistantMsg (oc.model temp), userMsg (searchResultsText q res)])
        (sc + 1) (calls + 1)
    ∧ (sc + 1 = maxS → ∀ (fuel2 : Nat) (temp2 : List Message) (calls2 : Nat),
        turnLoop oc clk true maxS (fuel2 + 1) temp2 (sc + 1) calls2 =
          some (.exhausted, calls2)) := by
  constructor
  · rw [turnLoop_succ, if_pos hsc]
    simp only [htool]
    rw [hfind]
    rw [if_pos (⟨by simp, by simp, hsc⟩ : _ ∧ _ ∧ _)]
    simp only [List.headD]
    rw [hsearch]
  · intro hmax fuel2 temp2 calls2
    rw [turnLoop_succ, if_neg (by omega)]

/-- C3, witness: a successful model-requested search at `search_count = 1`
with `maxSearchAttempts = 2` — the round appends the pair, and from the
incremented state the loop exits exhausted with no further model call. -/
theorem C3_search_success_round_witness :
    (turnLoop constSearchOracle sampleClock true 2 (0 + 1) [] 1 5 =
      turnLoop constSearchOracle sampleClock true 2 0
        ([] ++ [assistantMsg (constSearchOracle.model []),
          userMsg (searchResultsText "q1" "R")]) (1 + 1) (5 + 1))
    ∧ turnLoop constSearchOracle sampleClock true 2 (3 + 1)
        ([] ++ [assistantMsg (constSearchOracle.model []),
          userMsg (searchResultsText "q1" "R")]) (1 + 1) (5 + 1) =
      some (.exhausted, 5 + 1) := by
  have h := C3_search_success_round constSearchOracle sampleClock 2 0 1 5 [] "q1" "R" []
    (by decide) (by decide) rfl (by omega)
  exact ⟨h.1, h.2 rfl 3 _ (5 + 1)⟩

/-- C6, counterexample. A response carrying two search markers: `re.findall`
returns the matches in text order and the code executes
`search_matches[0]` — the *first* match, not the last.  In a full turn with
`echoOracle` (whose second response reports which query's results reached the
transcript) the final answer is "got first": the executed query was the first
marker's, refuting the claimed last-match tie-break. -/
theorem C6_cx_first_marker_executed :
    findallSearch twoMarkerText.data = ["first query", "second query"]
    ∧ (findallSearch twoMarkerText.data).getLast? = some "second query"
    ∧ askAIFuel 3 echoOracle sampleClock true true "hello" sampleHistory =
        some ⟨"got first",
          some (save_historyFn
            (sampleHistory ++ [userMsg "hello", assistantMsg "got first"])),
          .clean⟩
    ∧ askAIFuel 3 echoOracle sampleClock true true "hello" sampleHistory ≠
        some ⟨"got second",
          some (save_historyFn
            (sampleHistory ++ [userMsg "hello", assistantMsg "got second"])),
          .clean⟩ := by decide

/-- C6, amended. Exactly one marker is honored per round, and both tie-breaks
take the *first* match: the tool branch honors the first tool marker
(`re.search`), and a model-initiated search executes `search_matches[0]`,
the first search marker — the round's outcome depends on the search client
only through the head of the match list, whatever later matches contain. -/
theorem C6_tie_break_first_match (oc : Oracles) (clk : Clock) (maxS fuel sc calls : Nat)
    (temp : List Message) (q : String) (qs : List String)
    (htool : detect_tool_usage (oc.model temp) = (false, none, none))
    (hfind : findallSearch (oc.model temp).data = q :: qs)
    (hsc : sc < maxS) :
    (turnLoop oc clk true maxS (fuel + 1) temp sc calls =
      match oc.search q with
      | none =>
        turnLoop oc clk true maxS fuel
          (temp ++ [assistantMsg (oc.model temp), userMsg searchFailText])
          (sc + 1) (calls + 1)
      | some res =>
        turnLoop oc clk true maxS fuel
          (temp ++ [assistantMsg (oc.model temp), userMsg (searchResultsText q res)])
          (sc + 1) (calls + 1))
    ∧ detect_tool_usage "TOOL(\"time\") TOOL(\"date\")" = (true, some "time", none) := by
  refine ⟨?_, by decide⟩
  rw [turnLoop_succ, if_pos hsc]
  simp only [htool]
  rw [hfind]
  rw [if_pos (⟨by simp, by simp, hsc⟩ : _ ∧ _ ∧ _)]
  simp only [List.headD]

/-- C6, witness: the first-match round equation instantiated on the
two-marker response. -/
theorem C6_tie_break_first_match_witness :
    (turnLoop echoOracle sampleClock true 2 (0 + 1) [] 0 0 =
      match echoOracle.search "first query" with
      | none =>
        turnLoop echoOracle sampleClock true 2 0
          ([] ++ [assistantMsg (echoOracle.model []), userMsg searchFailText])
          (0 + 1) (0 + 1)
      | some res =>
        turnLoop echoOracle sampleClock true 2 0
          ([] ++ [assistantMsg (echoOracle.model []),
            userMsg (searchResultsText "first query" res)]) (0 + 1) (0 + 1))
    ∧ detect_tool_usage "TOOL(\"time\") TOOL(\"date\")" = (true, some "time", none) :=
  C6_tie_break_first_match echoOracle sampleClock 2 0 0 0 [] "first query" ["second query"]
    (by decide) (by decide) (by omega)

/-- C7. Whenever a turn completes with a clean final answer, the list handed
to `save_history` is exactly the prior history plus the original user message
and the single final assistant message, and consequently every persisted
message is either from the prior history or one of those two: none of the
synthetic working-copy messages survives into the persisted transcript. -/
theorem C7_clean_turn_frame (oc : Oracles) (clk : Clock) (web : Bool)
    (userInput : String) (history0 : List Message) (fuel : Nat) (out : RunOut)
    (hrun : askAIFuel fuel oc clk true web userInput history0 = some out)
    (hclean : out.exitKind = AskExit.clean) :
    out.saved = some (save_historyFn
        (history0 ++ [userMsg userInput, assistantMsg out.answer]))
    ∧ ∀ m ∈ save_historyFn (history0 ++ [userMsg userInput, assistantMsg out.answer]),
        m ∈ history0 ∨ m = userMsg userInput ∨ m = assistantMsg out.answer := by
  constructor
  · unfold askAIFuel at hrun
    rw [if_pos rfl] at hrun
    dsimp only at hrun
    split at hrun
    · cases hrun
    · injection hrun with h1
      rw [← h1]
      dsimp only
      rw [List.append_assoc]
      rfl
    · injection hrun with h1
      rw [← h1] at hclean
      cases hclean
  · intro m hm
    have h1 := mem_save_historyFn hm
    rcases List.mem_append.mp h1 with h | h
    · exact Or.inl h
    · simp only [List.mem_cons, List.not_mem_nil, or_false] at h
      rcases h with h | h
      · exact Or.inr (Or.inl h)
      · exact Or.inr (Or.inr h)

/-- C7, witness: a model that answers plainly on the first call; the
persisted list is exactly the prior history plus the new pair. -/
theorem C7_clean_turn_frame_witness :
    (RunOut.mk "Hi there."
        (some (save_historyFn
          (sampleHistory ++ [userMsg "hello", assistantMsg "Hi there."])))
        AskExit.clean).saved =
      some (save_historyFn (sampleHistory ++ [userMsg "hello", assistantMsg "Hi there."]))
    ∧ ∀ m ∈ save_historyFn (sampleHistory ++ [userMsg "hello", assistantMsg "Hi there."]),
        m ∈ sampleHistory ∨ m = userMsg "hello" ∨ m = assistantMsg "Hi there." :=
  C7_clean_turn_frame plainOracle sampleClock true "hello" sampleHistory 1
    (RunOut.mk "Hi there."
      (some (save_historyFn
        (sampleHistory ++ [userMsg "hello", assistantMsg "Hi there."])))
      AskExit.clean)
    (by decide) rfl

/-- C8. If none of the seven concrete-query triggers occurs in the lowered
user input, then the pre-emptive search query is `None` — in particular, for
an input additionally free of the five generic triggers `should_auto_search`
returns `(False, None)`, while an input containing only a generic trigger
yields `(True, None)`, which is equally falsy to the caller — and in either
case nothing is injected: the working transcript handed to the first model
call is exactly the prior history plus the new User message, with
`search_count = 0`. -/
theorem C8_no_trigger_no_search (clk : Clock) (userInput : String)
    (h7 : ∀ t ∈ (["weather", "temperature", "news", "stock", "price", "score",
        "match"] : List String),
      containsSub t.data (pyLower userInput).data = false) :
    (should_auto_search clk userInput).2 = none
    ∧ ((∀ t ∈ (["when", "today", "now", "current", "latest"] : List String),
          containsSub t.data (pyLower userInput).data = false) →
        should_auto_search clk userInput = (false, none))
    ∧ ∀ (oc : Oracles) (web : Bool) (history : List Message),
        initialTurnState oc web userInput clk history = (history, 0) := by
  have hcases : should_auto_search clk userInput = (false, none) ∨
      (should_auto_search clk userInput = (true, none) ∧
        ∃ t ∈ (["when", "today", "now", "current", "latest"] : List String),
          containsSub t.data (pyLower userInput).data = true) := by
    unfold should_auto_search
    dsimp only
    cases hfind : (searchTriggers clk).find?
        (fun p => containsSub p.1.data (pyLower userInput).data) with
    | none => exact Or.inl rfl
    | some p =>
      have hp : containsSub p.1.data (pyLower userInput).data = true := by
        have := List.find?_some hfind
        simpa using this
      have hmem := List.mem_of_find?_eq_some hfind
      simp only [searchTriggers, List.mem_cons, List.not_mem_nil, or_false] at hmem
      rcases hmem with h|h|h|h|h|h|h|h|h|h|h|h
      · subst h; dsimp only at hp; rw [h7 "weather" (by simp)] at hp; cases hp
      · subst h; dsimp only at hp; rw [h7 "temperature" (by simp)] at hp; cases hp
      · subst h; dsimp only at hp; rw [h7 "news" (by simp)] at hp; cases hp
      · subst h; dsimp only at hp; rw [h7 "stock" (by simp)] at hp; cases hp
      · subst h; dsimp only at hp; rw [h7 "price" (by simp)] at hp; cases hp
      · subst h; dsimp only at hp; rw [h7 "score" (by simp)] at hp; cases hp
      · subst h; dsimp only at hp; rw [h7 "match" (by simp)] at hp; cases hp
      · subst h; dsimp only at hp ⊢; exact Or.inr ⟨rfl, "when", by simp, hp⟩
      · subst h; dsimp only at hp ⊢; exact Or.inr ⟨rfl, "today", by simp, hp⟩
      · subst h; dsimp only at hp ⊢; exact Or.inr ⟨rfl, "now", by simp, hp⟩
      · subst h; dsimp only at hp ⊢; exact Or.inr ⟨rfl, "current", by simp, hp⟩
      · subst h; dsimp only at hp ⊢; exact Or.inr ⟨rfl, "latest", by simp, hp⟩
  rcases hcases with hv | ⟨hv, t, hmem5, ht⟩
  · refine ⟨by rw [hv], fun _ => hv, fun oc web history => ?_⟩
    unfold initialTurnState
    rw [hv]
  · refine ⟨by rw [hv], fun h5 => ?_, fun oc web history => ?_⟩
    · exact absurd ht (by rw [h5 t hmem5]; simp)
    · unfold initialTurnState
      rw [hv]

/-- C8, witness: the spec's example input `I like dogs` — no trigger fires,
detection returns `(False, None)`, and the first model call sees exactly the
prior history plus the new User message. -/
theorem C8_no_trigger_no_search_witness :
    (should_auto_search sampleClock "I like dogs").2 = none
    ∧ should_auto_search sampleClock "I like dogs" = (false, none)
    ∧ initialTurnState plainOracle true "I like dogs" sampleClock sampleHistory =
        (sampleHistory, 0) := by
  have h := C8_no_trigger_no_search sampleClock "I like dogs" (by decide)
  exact ⟨h.1, h.2.1 (by decide), h.2.2 plainOracle true sampleHistory⟩
